import Mathlib

/-!
Verification of `trepan-xpy`'s `info pc` subcommand
(`src/processor/command/info_subcmd/pc.py`, class `InfoPC`).

The development shallowly embeds the three functions of the source file:

* `generate_locals_dump` — the locals serializer: for each entry of the
  locals mapping it probes `json.dumps(value)`; on `TypeError`/`ValueError`
  it substitutes `repr(value)`; finally it renders the resulting dictionary
  with `json.dumps(..., indent=4)`.
* `print_locals_in_all_frames` — the frame-chain walker that emits one
  tag-delimited block per frame, bounded by an optional `limit`.
* `run` — prints the `[[[InfoFrames]]]` wrapper, walks the chain with the
  default limit 5, and returns `False`.

Python values are embedded as the inductive `PyValue`; a value holding a
circular reference (on which `json.dumps` raises `ValueError`) is embedded
as the constructor `PyValue.circular` carrying the `repr` text Python would
print for it, and a custom / native object (on which `json.dumps` raises
`TypeError`) as `PyValue.obj`.  `json.dumps` is embedded as a conversion
to a JSON tree (`toJson`, which is where Python's serialization errors
arise) followed by a pure rendering (`renderC` for the compact form,
`renderI` for `indent=4`).  External collaborators of the source file
(`trepan.lib.stack.frame2file`, `linecache.getline`,
`trepan.lib.disassemble.disassemble_bytes`, the VM opcode table) are
parameters bundled in `Externals`; the walker's emitted output is a trace
of `OutEvent`s, one per `print`/`self.msg` call, with the
`disassemble_bytes` call recorded together with the exact arguments the
source passes it.
-/

/-- Embedded Python values, as the locals mappings of the inspected program
may contain them.  `obj` is a custom / native object (its fields are the
run-time type's `__name__` and its `repr` text); `circular` is a container
holding a cyclic self-reference (fields likewise), on which Python's
`json.dumps` raises `ValueError` rather than `TypeError`. -/
inductive PyValue where
| none : PyValue
| bool (b : Bool) : PyValue
| int (n : Int) : PyValue
| str (s : String) : PyValue
| list (xs : List PyValue) : PyValue
| dict (entries : List (String × PyValue)) : PyValue
| obj (tyName reprText : String) : PyValue
| circular (tyName reprText : String) : PyValue
deriving Repr

/-- `type(value).__name__` for an embedded Python value. -/
def typeName : PyValue → String
| .none => "NoneType"
| .bool _ => "bool"
| .int _ => "int"
| .str _ => "str"
| .list _ => "list"
| .dict _ => "dict"
| .obj t _ => t
| .circular t _ => t

/-- JSON trees: the values `json.dumps` can render. -/
inductive JVal where
| null : JVal
| bool (b : Bool) : JVal
| int (n : Int) : JVal
| str (s : String) : JVal
| arr (xs : List JVal) : JVal
| obj (entries : List (String × JVal)) : JVal
deriving Repr

/-- The two exception classes `generate_locals_dump` catches from
`json.dumps`: `TypeError` (unencodable type) and `ValueError`
(circular reference). -/
inductive JsonErr where
| typeError : JsonErr
| valueError : JsonErr
deriving Repr, DecidableEq

mutual

/-- The encoding scan of `json.dumps`: succeeds on `None`, booleans,
integers, strings and (recursively) lists and string-keyed dicts of such;
raises `TypeError` on any other object and `ValueError` on a circular
reference. -/
def toJson : PyValue → Except JsonErr JVal
| .none => .ok .null
| .bool b => .ok (.bool b)
| .int n => .ok (.int n)
| .str s => .ok (.str s)
| .list xs => (toJsonL xs).map JVal.arr
| .dict es => (toJsonD es).map JVal.obj
| .obj _ _ => .error .typeError
| .circular _ _ => .error .valueError

/-- `toJson` over the elements of a Python list. -/
def toJsonL : List PyValue → Except JsonErr (List JVal)
| [] => .ok []
| v :: vs => do
  let j ← toJson v
  let js ← toJsonL vs
  .ok (j :: js)

/-- `toJson` over the entries of a string-keyed Python dict. -/
def toJsonD : List (String × PyValue) → Except JsonErr (List (String × JVal))
| [] => .ok []
| (k, v) :: rest => do
  let j ← toJson v
  let js ← toJsonD rest
  .ok ((k, j) :: js)

end

/-- JSON string escaping for one character (the common escapes;
the model covers ASCII content). -/
def jsonEscapeChar (c : Char) : String :=
if c = '\"' then "\\\""
else if c = '\\' then "\\\\"
else if c = '\n' then "\\n"
else if c = '\t' then "\\t"
else if c = '\r' then "\\r"
else String.mk [c]

/-- A JSON string literal: quotes around the escaped content. -/
def jsonQuote (s : String) : String :=
"\"" ++ String.join (s.data.map jsonEscapeChar) ++ "\""

mutual

/-- Compact rendering of a JSON tree, as `json.dumps` with its default
separators `", "` and `": "` produces it. -/
def renderC : JVal → String
| .null => "null"
| .bool b => if b then "true" else "false"
| .int n => toString n
| .str s => jsonQuote s
| .arr xs => "[" ++ String.intercalate ", " (renderCL xs) ++ "]"
| .obj es => "\x7b" ++ String.intercalate ", " (renderCO es) ++ "\x7d"

/-- Compact rendering of the elements of a JSON array. -/
def renderCL : List JVal → List String
| [] => []
| v :: vs => renderC v :: renderCL vs

/-- Compact rendering of the entries of a JSON object. -/
def renderCO : List (String × JVal) → List String
| [] => []
| (k, v) :: rest => (jsonQuote k ++ ": " ++ renderC v) :: renderCO rest

end

/-- `indent * level` spaces, the indentation prefix `json.dumps(...,
indent=4)` puts before each nested element. -/
def jsonPad (level : Nat) : String :=
String.mk (List.replicate (4 * level) ' ')

mutual

/-- Rendering of a JSON tree as `json.dumps(..., indent=4)` produces it:
each container element on its own line, indented four spaces per nesting
level, items separated by `",\n"`, keys separated from values by `": "`,
and empty containers rendered `[]` / `{}`. -/
def renderI (level : Nat) : JVal → String
| .null => "null"
| .bool b => if b then "true" else "false"
| .int n => toString n
| .str s => jsonQuote s
| .arr xs =>
  match xs with
  | [] => "[]"
  | _ => "[" ++ "\n" ++ String.intercalate ",\n" (renderIL (level + 1) xs)
           ++ "\n" ++ jsonPad level ++ "]"
| .obj es =>
  match es with
  | [] => "\x7b\x7d"
  | _ => "\x7b" ++ "\n" ++ String.intercalate ",\n" (renderIObjEntries (level + 1) es)
           ++ "\n" ++ jsonPad level ++ "\x7d"

/-- Indented rendering of the elements of a JSON array. -/
def renderIL (level : Nat) : List JVal → List String
| [] => []
| v :: vs => (jsonPad level ++ renderI level v) :: renderIL level vs

/-- Indented rendering of the entries of a JSON object. -/
def renderIObjEntries (level : Nat) : List (String × JVal) → List String
| [] => []
| (k, v) :: rest =>
  (jsonPad level ++ jsonQuote k ++ ": " ++ renderI level v) :: renderIObjEntries level rest

end

mutual

/-- Python's `repr` for the embedded values: `None`, `True`/`False`,
decimal integers, single-quoted strings, bracketed lists, braced dicts;
for custom objects and circular containers, the `repr` text they carry. -/
def pyRepr : PyValue → String
| .none => "None"
| .bool b => if b then "True" else "False"
| .int n => toString n
| .str s => "\x27" ++ s ++ "\x27"
| .list xs => "[" ++ String.intercalate ", " (pyReprL xs) ++ "]"
| .dict es => "\x7b" ++ String.intercalate ", " (pyReprD es) ++ "\x7d"
| .obj _ r => r
| .circular _ r => r

/-- `repr` over the elements of a Python list. -/
def pyReprL : List PyValue → List String
| [] => []
| v :: vs => pyRepr v :: pyReprL vs

/-- `repr` over the entries of a string-keyed Python dict. -/
def pyReprD : List (String × PyValue) → List String
| [] => []
| (k, v) :: rest => ("\x27" ++ k ++ "\x27: " ++ pyRepr v) :: pyReprD rest

end

/-- `json.dumps(value)` with default arguments: the encoding scan followed
by the compact rendering; an exception is an `Except.error`. -/
def json_dumps (v : PyValue) : Except JsonErr String :=
(toJson v).map renderC

/-- `json.dumps(value, indent=4)`: the encoding scan followed by the
indented rendering. -/
def json_dumps_indent4 (v : PyValue) : Except JsonErr String :=
(toJson v).map (renderI 0)

/-- `safe_serialize` (the inner function of `generate_locals_dump`):
probe `json.dumps(value)`; if it succeeds return the value as-is,
on `TypeError`/`ValueError` return `repr(value)` instead. -/
def safe_serialize (v : PyValue) : PyValue :=
match json_dumps v with
| .ok _ => v
| .error _ => .str (pyRepr v)

/-- The fresh dictionary `safe_locals` that `generate_locals_dump` builds
from the input mapping by the comprehension
`{key: safe_serialize(value) for key, value in locals_dict.items()}`. -/
def safe_locals (locals_dict : List (String × PyValue)) : List (String × PyValue) :=
locals_dict.map (fun kv => (kv.1, safe_serialize kv.2))

/-- `InfoPC.generate_locals_dump`: build `safe_locals` and render it with
`json.dumps(safe_locals, indent=4)`.  An uncaught exception from the final
`json.dumps` would surface as `Except.error`. -/
def generate_locals_dump (locals_dict : List (String × PyValue)) : Except JsonErr String :=
json_dumps_indent4 (.dict (safe_locals locals_dict))

/-- The spec's description of one serialized entry ("attempt a canonical
structured encoding; if the value's runtime type is not encodable that
way, substitute the value's debug/human-readable textual form"): the
value's JSON tree when it has one, otherwise the JSON string holding its
`repr`. -/
def specEntryEncoding (v : PyValue) : JVal :=
match toJson v with
| .ok j => j
| .error _ => .str (pyRepr v)

/-- The JSON text `generate_locals_dump` produces, as a total function:
the indented rendering of the object whose entries are the input's keys
paired with their `specEntryEncoding`. -/
def gldString (locals_dict : List (String × PyValue)) : String :=
renderI 0 (.obj (locals_dict.map (fun kv => (kv.1, specEntryEncoding kv.2))))

/-- A Python code object, with the fields `print_locals_in_all_frames`
reads: `co_name`, the raw byte string `co_code`, the symbol tables
`co_varnames` / `co_names` / `co_consts` / `co_cellvars` / `co_freevars`,
and the offset-to-line table `dict(findlinestarts(code))` that the external
`xdis.findlinestarts` derives from the code object. -/
structure Code where
  co_name : String
  co_code : List Nat
  co_varnames : List String
  co_names : List String
  co_consts : List PyValue
  co_cellvars : List String
  co_freevars : List String
  linestarts : List (Int × Int)

/-- One frame of the inspected program's chain: its code object, the raw
current instruction offset `f_lasti` (which Python sets to `-1` before the
first instruction runs), the current line `inspect.getlineno(frame)`
returns, and the `f_locals` / `f_globals` mappings.  The chain itself
(`f_back` links ending in `None`) is materialized as a `List Frame`. -/
structure Frame where
  f_code : Code
  f_lasti : Int
  f_lineno : Int
  f_locals : List (String × PyValue)
  f_globals : List (String × PyValue)

/-- The arguments `print_locals_in_all_frames` passes to the external
`disassemble_bytes` (besides the two output callbacks). -/
structure DisasmArgs where
  code : List Nat
  lasti : Int
  cur_line : Int
  start_line : Int
  end_line : Int
  varnames : List String
  names : List String
  constants : List PyValue
  cells : List String
  freevars : List String
  linestarts : List (Int × Int)
  end_offset : Option Int
  opc : Nat

/-- The external collaborators of `pc.py`: `Mstack.frame2file(core, frame,
canonic=False)`, `linecache.getline(filename, line_no, f_globals)`, the
output `disassemble_bytes` writes through its callbacks, and the opcode
table `proc.vm.opc` (an abstract handle). -/
structure Externals where
  frame2file : Frame → String
  getline : String → Int → List (String × PyValue) → String
  disassemble_bytes : DisasmArgs → List String
  vmOpc : Nat

/-- One output event of the walker: a line printed by `print` or
`self.msg` (possibly containing embedded newlines, as the `[[[Locals]]]`
f-string does), or the `disassemble_bytes` call with the arguments the
source passes it. -/
inductive OutEvent where
| line (s : String) : OutEvent
| disasm (args : DisasmArgs) : OutEvent

/-- The dict comprehension `{key: type(value).__name__ for key, value in
frame.f_locals.items()}` building the type-name view of the locals. -/
def localsTypes (locals_dict : List (String × PyValue)) : List (String × PyValue) :=
locals_dict.map (fun kv => (kv.1, PyValue.str (typeName kv.2)))

/-- The body of the `while` loop of `print_locals_in_all_frames` for one
frame, as the source executes it: the prints and `self.msg` calls in
order, the `disassemble_bytes` call with `lasti = max(offset, 0)` and the
one-line window `start_line = line_no - 1`, `end_line = line_no + 1`, and
the three `generate_locals_dump` calls, whose exceptions would
propagate. -/
def frameBlockE (ext : Externals) (frame : Frame) (count : Nat) :
    Except JsonErr (List OutEvent) := do
  let filename := ext.frame2file frame
  let line_no := frame.f_lineno
  let line := ext.getline filename line_no frame.f_globals
  let offset := frame.f_lasti
  let offset2 := max offset 0
  let code := frame.f_code
  let _locals_values ← generate_locals_dump frame.f_locals
  let locals_types := localsTypes frame.f_locals
  let localsDump ← generate_locals_dump frame.f_locals
  let typesDump ← generate_locals_dump locals_types
  .ok [OutEvent.line "[[[FrameEntry]]]",
       OutEvent.line ("[[[FrameIndex]]] " ++ toString count ++ " [[[/FrameIndex]]]"),
       OutEvent.line ("[[[Filename]]] " ++ filename ++ " [[[/Filename]]]"),
       OutEvent.line ("[[[Function]]] " ++ code.co_name ++ " [[[/Function]]]"),
       OutEvent.line "[[[LineNumber]]]",
       OutEvent.line (toString line_no),
       OutEvent.line "[[[/LineNumber]]]",
       OutEvent.line "[[[SourceLine]]]",
       OutEvent.line line,
       OutEvent.line "[[[/SourceLine]]]",
       OutEvent.line "[[[PcOffset]]]",
       OutEvent.line (toString offset),
       OutEvent.line "[[[/PcOffset]]]",
       OutEvent.line "",
       OutEvent.line "[[[PythonBytecodes]]]",
       OutEvent.disasm
         { code := code.co_code, lasti := offset2, cur_line := line_no,
           start_line := line_no - 1, end_line := line_no + 1,
           varnames := code.co_varnames, names := code.co_names,
           constants := code.co_consts, cells := code.co_cellvars,
           freevars := code.co_freevars, linestarts := code.linestarts,
           end_offset := Option.none, opc := ext.vmOpc },
       OutEvent.line "[[[/PythonBytecodes]]]",
       OutEvent.line ("[[[Locals]]]" ++ "\n" ++ localsDump ++ "\n" ++ "[[[/Locals]]]"),
       OutEvent.line ("[[[LocalsTypes]]]" ++ "\n" ++ typesDump ++ "\n" ++ "[[[/LocalsTypes]]]"),
       OutEvent.line "[[[/FrameEntry]]]"]

/-- The same per-frame block as a total function (justified by
`frameBlockE_eq`: the serializer never actually raises). -/
def frameBlock (ext : Externals) (frame : Frame) (count : Nat) : List OutEvent :=
  [OutEvent.line "[[[FrameEntry]]]",
   OutEvent.line ("[[[FrameIndex]]] " ++ toString count ++ " [[[/FrameIndex]]]"),
   OutEvent.line ("[[[Filename]]] " ++ ext.frame2file frame ++ " [[[/Filename]]]"),
   OutEvent.line ("[[[Function]]] " ++ frame.f_code.co_name ++ " [[[/Function]]]"),
   OutEvent.line "[[[LineNumber]]]",
   OutEvent.line (toString frame.f_lineno),
   OutEvent.line "[[[/LineNumber]]]",
   OutEvent.line "[[[SourceLine]]]",
   OutEvent.line (ext.getline (ext.frame2file frame) frame.f_lineno frame.f_globals),
   OutEvent.line "[[[/SourceLine]]]",
   OutEvent.line "[[[PcOffset]]]",
   OutEvent.line (toString frame.f_lasti),
   OutEvent.line "[[[/PcOffset]]]",
   OutEvent.line "",
   OutEvent.line "[[[PythonBytecodes]]]",
   OutEvent.disasm
     { code := frame.f_code.co_code, lasti := max frame.f_lasti 0,
       cur_line := frame.f_lineno,
       start_line := frame.f_lineno - 1, end_line := frame.f_lineno + 1,
       varnames := frame.f_code.co_varnames, names := frame.f_code.co_names,
       constants := frame.f_code.co_consts, cells := frame.f_code.co_cellvars,
       freevars := frame.f_code.co_freevars, linestarts := frame.f_code.linestarts,
       end_offset := Option.none, opc := ext.vmOpc },
   OutEvent.line "[[[/PythonBytecodes]]]",
   OutEvent.line ("[[[Locals]]]" ++ "\n" ++ gldString frame.f_locals ++ "\n" ++ "[[[/Locals]]]"),
   OutEvent.line ("[[[LocalsTypes]]]" ++ "\n" ++ gldString (localsTypes frame.f_locals)
     ++ "\n" ++ "[[[/LocalsTypes]]]"),
   OutEvent.line "[[[/FrameEntry]]]"]

/-- The `while` condition's limit part: `limit is None or count < limit`. -/
def continueCond (limit : Option Int) (count : Nat) : Bool :=
match limit with
| Option.none => true
| Option.some l => (count : Int) < l

/-- The `while` loop of `print_locals_in_all_frames`: the chain end
(`frame is None`) or a failing limit check stops the walk; otherwise one
block is emitted and the walk moves to `frame.f_back` with `count + 1`. -/
def walkE (ext : Externals) (limit : Option Int) :
    List Frame → Nat → Except JsonErr (List OutEvent)
| [], _ => .ok []
| frame :: rest, count =>
  if continueCond limit count then do
    let evs ← frameBlockE ext frame count
    let tail ← walkE ext limit rest (count + 1)
    .ok (evs ++ tail)
  else .ok []

/-- `InfoPC.print_locals_in_all_frames(curframe, limit)`: the loop started
at the current frame with `count = 0`. -/
def print_locals_in_all_frames (ext : Externals) (frames : List Frame)
    (limit : Option Int) : Except JsonErr (List OutEvent) :=
walkE ext limit frames 0

/-- The walk as a total function (justified by `walkE_eq`). -/
def walkT (ext : Externals) (limit : Option Int) :
    List Frame → Nat → List OutEvent
| [], _ => []
| frame :: rest, count =>
  if continueCond limit count then
    frameBlock ext frame count ++ walkT ext limit rest (count + 1)
  else []

/-- `InfoPC.run(args, limit=5)`: print `[[[InfoFrames]]]`, walk the chain,
print `[[[/InfoFrames]]]`, return `False`. -/
def run (ext : Externals) (frames : List Frame) (args : List String)
    (limit : Option Int) : Except JsonErr (List OutEvent × Bool) := do
  let evs ← print_locals_in_all_frames ext frames limit
  .ok ([OutEvent.line "[[[InfoFrames]]]"] ++ evs ++ [OutEvent.line "[[[/InfoFrames]]]"], false)

/-- `run` invoked without an explicit limit: the parameter default
`limit=5` of the source applies. -/
def runDefault (ext : Externals) (frames : List Frame) (args : List String) :
    Except JsonErr (List OutEvent × Bool) :=
run ext frames args (Option.some 5)

/-- Rendering of the event trace to the actual output lines: a `disasm`
event expands to whatever the external `disassemble_bytes` writes. -/
def renderOut (ext : Externals) (evs : List OutEvent) : List String :=
evs.flatMap (fun e =>
  match e with
  | OutEvent.line s => [s]
  | OutEvent.disasm a => ext.disassemble_bytes a)

/-- The walk with the frame store threaded explicitly: every step reads
the frames and rebuilds the store it returns; a mutation of a frame, its
code or its locals by the source would appear here as a changed store. -/
def walkSt (ext : Externals) (limit : Option Int) :
    List Frame → Nat → Except JsonErr (List OutEvent) × List Frame
| [], _ => (.ok [], [])
| frame :: rest, count =>
  if continueCond limit count then
    match frameBlockE ext frame count with
    | .error e => (.error e, frame :: rest)
    | .ok evs =>
      let r := walkSt ext limit rest (count + 1)
      (r.1.map (fun tail => evs ++ tail), frame :: r.2)
  else (.ok [], frame :: rest)

/-- Per-event check that a recorded `disassemble_bytes` call uses the
one-line window around its current line. -/
def disasmWindowOk (e : OutEvent) : Bool :=
match e with
| OutEvent.line _ => true
| OutEvent.disasm a => a.start_line == a.cur_line - 1 && a.end_line == a.cur_line + 1

theorem toJson_safe_serialize (v : PyValue) :
    toJson (safe_serialize v) = .ok (specEntryEncoding v) := by
  unfold safe_serialize specEntryEncoding json_dumps
  cases h : toJson v with
  | ok j => simp [h, Except.map]
  | error e => simp [h, Except.map, toJson]

theorem toJsonD_safe_locals (d : List (String × PyValue)) :
    toJsonD (safe_locals d)
      = .ok (d.map (fun kv => (kv.1, specEntryEncoding kv.2))) := by
  induction d with
  | nil => rfl
  | cons kv rest ih =>
    obtain ⟨k, v⟩ := kv
    simp only [safe_locals, List.map_cons] at ih ⊢
    rw [toJsonD, toJson_safe_serialize v, ih]
    rfl

theorem generate_locals_dump_eq (d : List (String × PyValue)) :
    generate_locals_dump d = .ok (gldString d) := by
  unfold generate_locals_dump json_dumps_indent4 gldString
  simp [toJson, toJsonD_safe_locals d, Except.map]

theorem frameBlockE_eq (ext : Externals) (f : Frame) (count : Nat) :
    frameBlockE ext f count = .ok (frameBlock ext f count) := by
  unfold frameBlockE frameBlock
  simp only [generate_locals_dump_eq]
  rfl

theorem walkE_eq (ext : Externals) (limit : Option Int) :
    ∀ (frames : List Frame) (count : Nat),
      walkE ext limit frames count = .ok (walkT ext limit frames count) := by
  intro frames
  induction frames with
  | nil => intro count; rfl
  | cons f rest ih =>
    intro count
    unfold walkE walkT
    by_cases h : continueCond limit count
    · rw [if_pos h, if_pos h, frameBlockE_eq, ih (count + 1)]
      rfl
    · rw [if_neg h, if_neg h]

theorem walkSt_eq (ext : Externals) (limit : Option Int) :
    ∀ (frames : List Frame) (count : Nat),
      (walkSt ext limit frames count).2 = frames
      ∧ (walkSt ext limit frames count).1 = walkE ext limit frames count := by
  intro frames
  induction frames with
  | nil => intro count; exact ⟨rfl, rfl⟩
  | cons f rest ih =>
    intro count
    unfold walkSt walkE
    by_cases h : continueCond limit count
    · rw [if_pos h, if_pos h, frameBlockE_eq]
      have h2 := (ih (count + 1)).2
      have h1 := (ih (count + 1)).1
      rw [walkE_eq] at h2
      constructor
      · simp [h1]
      · simp [h2, walkE_eq]
        rfl
    · rw [if_neg h, if_neg h]
      exact ⟨rfl, rfl⟩

theorem walkT_none_eq (ext : Externals) :
    ∀ (frames : List Frame) (count : Nat),
      walkT ext Option.none frames count
        = ((frames.enumFrom count).map (fun p => frameBlock ext p.2 p.1)).flatten := by
  intro frames
  induction frames with
  | nil => intro count; rfl
  | cons f rest ih =>
    intro count
    simp [walkT, continueCond, List.enumFrom, ih]

theorem walkT_some_eq (ext : Externals) (L : Int) :
    ∀ (frames : List Frame) (count : Nat),
      walkT ext (Option.some L) frames count
        = (((frames.take (L - count).toNat).enumFrom count).map
            (fun p => frameBlock ext p.2 p.1)).flatten := by
  intro frames
  induction frames with
  | nil => intro count; simp [walkT]
  | cons f rest ih =>
    intro count
    by_cases h : (count : Int) < L
    · have hk : (L - (count : Int)).toNat = (L - ((count : Int) + 1)).toNat + 1 := by omega
      have hc : continueCond (Option.some L) count = true := by
        simp [continueCond, h]
      rw [walkT, hc, if_pos rfl, hk, List.take_succ_cons]
      have ih2 := ih (count + 1)
      push_cast at ih2
      rw [ih2]
      simp [List.enumFrom]
    · have hk : (L - (count : Int)).toNat = 0 := by omega
      have hc : continueCond (Option.some L) count = false := by
        simp [continueCond, h]
      rw [walkT, hc, hk]
      simp

theorem frameBlock_all_disasmWindowOk (ext : Externals) (f : Frame) (count : Nat) :
    (frameBlock ext f count).all disasmWindowOk = true := by
  simp [frameBlock, disasmWindowOk]

theorem walkT_all_disasmWindowOk (ext : Externals) (limit : Option Int) :
    ∀ (frames : List Frame) (count : Nat),
      (walkT ext limit frames count).all disasmWindowOk = true := by
  intro frames
  induction frames with
  | nil => intro count; rfl
  | cons f rest ih =>
    intro count
    unfold walkT
    by_cases h : continueCond limit count
    · rw [if_pos h, List.all_append, frameBlock_all_disasmWindowOk, ih (count + 1)]
      rfl
    · rw [if_neg h]
      rfl

theorem take_min {α : Type} (l : List α) (n : Nat) :
    l.take n = l.take (min l.length n) := by
  rcases Nat.le_total l.length n with h | h
  · rw [Nat.min_eq_left h, List.take_length, List.take_of_length_le h]
  · rw [Nat.min_eq_right h]

theorem renderI_obj_ne_empty (es : List (String × JVal)) :
    renderI 0 (JVal.obj es) ≠ "" := by
  cases es with
  | nil => decide
  | cons e rest =>
    intro hcontra
    have hlen := congrArg String.length hcontra
    rw [renderI] at hlen
    · simp only [String.length_append, show ("\x7b" : String).length = 1 from rfl,
        show ("\x7d" : String).length = 1 from rfl,
        show ("" : String).length = 0 from rfl] at hlen
      omega
    · intro h
      cases h

/-- C1: for every input mapping, the value serializer
`generate_locals_dump` returns a textual result and never raises —
including when the mapping contains values with cyclic self-reference
(`PyValue.circular`, on which the `json.dumps` probe raises `ValueError`),
custom types (`PyValue.obj`, `TypeError`), or values that cannot be
structurally encoded: the probe's exceptions are caught inside
`safe_serialize` and the final `json.dumps(safe_locals, indent=4)` always
succeeds. -/
theorem serializer_never_raises (locals_dict : List (String × PyValue)) :
    ∃ s : String, generate_locals_dump locals_dict = .ok s :=
  ⟨gldString locals_dict, generate_locals_dump_eq locals_dict⟩

/-- C2: for every mapping, `generate_locals_dump` terminates and returns a
non-null text whose decoded structure is the JSON object holding exactly
the input's keys in order, where each entry whose value is JSON-encodable
keeps its canonical encoding and every other entry is replaced by the
JSON string holding the value's `repr` (`specEntryEncoding`). -/
theorem serializer_same_keyset (locals_dict : List (String × PyValue)) :
    ∃ s : String,
      generate_locals_dump locals_dict = .ok s
      ∧ s = renderI 0 (JVal.obj (locals_dict.map (fun kv => (kv.1, specEntryEncoding kv.2))))
      ∧ (locals_dict.map (fun kv => (kv.1, specEntryEncoding kv.2))).map Prod.fst
          = locals_dict.map Prod.fst
      ∧ s ≠ "" := by
  refine ⟨gldString locals_dict, generate_locals_dump_eq locals_dict, rfl, ?_, ?_⟩
  · rw [List.map_map]
    rfl
  · exact renderI_obj_ne_empty _

/-- C3: for a frame chain of length `N` walked with numeric limit `L`,
`print_locals_in_all_frames` emits exactly `min N L` `FrameEntry` blocks
(the blocks of the first `min N L` frames, in chain order), each block
opening with `[[[FrameEntry]]]` followed by its `FrameIndex` line, indices
`0 .. min N L - 1` contiguous and strictly increasing from the innermost
frame outward; `run` with `limit = 0` yields an `InfoFrames` block with
zero `FrameEntry` elements and no error. -/
theorem frame_walk_min_blocks (ext : Externals) (frames : List Frame)
    (args : List String) (L : Nat) :
    print_locals_in_all_frames ext frames (Option.some (L : Int))
        = .ok ((((frames.take (min frames.length L)).enum).map
            (fun p => frameBlock ext p.2 p.1)).flatten)
    ∧ ((frames.take (min frames.length L)).enum).length = min frames.length L
    ∧ (∀ (f : Frame) (i : Nat), ∃ rest,
        frameBlock ext f i
          = OutEvent.line "[[[FrameEntry]]]"
            :: OutEvent.line ("[[[FrameIndex]]] " ++ toString i ++ " [[[/FrameIndex]]]")
            :: rest)
    ∧ run ext frames args (Option.some 0)
        = .ok ([OutEvent.line "[[[InfoFrames]]]", OutEvent.line "[[[/InfoFrames]]]"], false) := by
  refine ⟨?_, ?_, ?_, ?_⟩
  · rw [print_locals_in_all_frames, walkE_eq, walkT_some_eq]
    rw [show ((L : Int) - (0 : Nat)).toNat = L by omega]
    rw [take_min]
    rfl
  · rw [List.enum_length, List.length_take]
    omega
  · intro f i
    exact ⟨_, rfl⟩
  · unfold run print_locals_in_all_frames
    rw [walkE_eq, walkT_some_eq]
    rw [show ((0 : Int) - (0 : Nat)).toNat = 0 by omega]
    rfl

/-- A code object for the clamping counterexample: two bytes of code. -/
def cxCode : Code :=
  { co_name := "f", co_code := [100, 0], co_varnames := [], co_names := [],
    co_consts := [], co_cellvars := [], co_freevars := [], linestarts := [(0, 3)] }

/-- A frame whose `f_lasti` is `-1` (as Python sets it before the first
instruction executes): an offset outside the code's byte range. -/
def cxFrame : Frame :=
  { f_code := cxCode, f_lasti := -1, f_lineno := 3, f_locals := [], f_globals := [] }

/-- A frame whose `f_lasti` is `1000`, far beyond the two-byte code. -/
def cxFrameBig : Frame := { cxFrame with f_lasti := 1000 }

/-- Concrete externals for the counterexample. -/
def cxExt : Externals :=
  { frame2file := fun _ => "file.py", getline := fun _ _ _ => "source",
    disassemble_bytes := fun _ => [], vmOpc := 0 }

/-- C4 counterexample: the walker does not clamp an out-of-range
`current_offset` to zero for the reported `PcOffset` — at `f_lasti = -1`
the `PcOffset` content line (position 11 of the frame block) is `-1`, not
`0`, because the source prints the offset before `offset = max(offset, 0)`
runs; and an offset beyond the code's byte range (1000 on a 2-byte code)
reaches the disassembler's `lasti` unclamped. -/
theorem pc_offset_clamp_cx :
    cxFrame.f_lasti = -1
    ∧ print_locals_in_all_frames cxExt [cxFrame] Option.none
        = .ok (frameBlock cxExt cxFrame 0)
    ∧ (frameBlock cxExt cxFrame 0)[11]? = some (OutEvent.line "-1")
    ∧ (frameBlock cxExt cxFrame 0)[11]? ≠ some (OutEvent.line "0")
    ∧ cxFrameBig.f_lasti = 1000
    ∧ cxFrameBig.f_code.co_code.length = 2
    ∧ (∃ a, (frameBlock cxExt cxFrameBig 0)[15]? = some (OutEvent.disasm a)
        ∧ a.lasti = 1000 ∧ a.lasti ≠ 0) := by
  refine ⟨rfl, ?_, rfl, ?_, rfl, rfl, ⟨_, rfl, rfl, ?_⟩⟩
  · rw [print_locals_in_all_frames, walkE_eq]
    show Except.ok (frameBlock cxExt cxFrame 0 ++ walkT cxExt Option.none [] 1) = _
    rw [show walkT cxExt Option.none [] 1 = [] from rfl, List.append_nil]
  · intro h
    rw [show (frameBlock cxExt cxFrame 0)[11]? = some (OutEvent.line "-1") from rfl] at h
    simp only [Option.some.injEq, OutEvent.line.injEq] at h
    exact absurd h (by decide)
  · show max cxFrameBig.f_lasti 0 ≠ 0
    decide

/-- C4 (amended): the walker never fails because of an out-of-range
offset, but the clamping is `max(offset, 0)`: only a negative
`current_offset` is clamped to zero, an offset beyond the code's end
passes through unchanged, the clamped value is used only as the
disassembler's current-instruction marker `lasti`, and the reported
`PcOffset` is the raw unclamped `f_lasti`. -/
theorem pc_offset_clamp_amended (ext : Externals) (f : Frame) (count : Nat) :
    frameBlockE ext f count = .ok (frameBlock ext f count)
    ∧ (∃ a, (frameBlock ext f count)[15]? = some (OutEvent.disasm a)
        ∧ a.lasti = max f.f_lasti 0
        ∧ a.lasti = (if f.f_lasti < 0 then 0 else f.f_lasti))
    ∧ (frameBlock ext f count)[11]? = some (OutEvent.line (toString f.f_lasti)) := by
  refine ⟨frameBlockE_eq ext f count, ⟨_, rfl, rfl, ?_⟩, rfl⟩
  show max f.f_lasti 0 = _
  split <;> omega

/-- C5: invoking `run` twice on the same unmutated snapshot (same frame
chain, same externals, same arguments and limit) produces byte-identical
output: the event trace and its rendered text are a deterministic function
of the snapshot alone. -/
theorem report_idempotent (ext : Externals) (frames : List Frame)
    (args : List String) (limit : Option Int) (r₁ r₂ : List OutEvent × Bool)
    (h₁ : run ext frames args limit = .ok r₁)
    (h₂ : run ext frames args limit = .ok r₂) :
    r₁ = r₂ ∧ renderOut ext r₁.1 = renderOut ext r₂.1 := by
  rw [h₁] at h₂
  have heq : r₁ = r₂ := by
    cases h₂
    rfl
  exact ⟨heq, by rw [heq]⟩

/-- Externals for the idempotence witness. -/
def wExt : Externals :=
  { frame2file := fun _ => "w.py", getline := fun _ _ _ => "",
    disassemble_bytes := fun _ => [], vmOpc := 0 }

/-- The result of the witness invocation of `run`. -/
def wRes : List OutEvent × Bool :=
  ([OutEvent.line "[[[InfoFrames]]]", OutEvent.line "[[[/InfoFrames]]]"], false)

/-- Witness for `report_idempotent`: a concrete invocation evaluated
twice. -/
theorem report_idempotent_witness :
    run wExt [] [] (Option.some 5) = .ok wRes
    ∧ wRes = wRes ∧ renderOut wExt wRes.1 = renderOut wExt wRes.1 :=
  ⟨rfl, report_idempotent wExt [] [] (Option.some 5) wRes wRes rfl rfl⟩

/-- C6: for every frame, the disassembly window passed to
`disassemble_bytes` spans exactly one line before the frame's current
source line through one line after it (`start_line = line_no - 1`,
`end_line = line_no + 1`, `cur_line = line_no`), so the current line is
inside the displayed span; and every disassembler call recorded in any
walk satisfies this window. -/
theorem disasm_window_one_line (ext : Externals) (frames : List Frame)
    (limit : Option Int) (f : Frame) (count : Nat) :
    (∃ a, (frameBlock ext f count)[15]? = some (OutEvent.disasm a)
       ∧ a.cur_line = f.f_lineno
       ∧ a.start_line = f.f_lineno - 1 ∧ a.end_line = f.f_lineno + 1
       ∧ a.start_line ≤ a.cur_line ∧ a.cur_line ≤ a.end_line)
    ∧ (∃ out, print_locals_in_all_frames ext frames limit = .ok out
        ∧ out.all disasmWindowOk = true) := by
  constructor
  · refine ⟨_, rfl, rfl, rfl, rfl, ?_, ?_⟩
    · show f.f_lineno - 1 ≤ f.f_lineno
      omega
    · show f.f_lineno ≤ f.f_lineno + 1
      omega
  · exact ⟨walkT ext limit frames 0, walkE_eq ext limit frames 0,
      walkT_all_disasmWindowOk ext limit frames 0⟩

/-- C7: for every finite frame chain the walk terminates (the embedded
walker is a total function): with `limit = None` — the distinct
non-numeric "unbounded" option — it stops exactly when the caller chain
reaches its end, emitting every frame's block; with any limit it returns
normally; and `run`'s default limit is the number 5. -/
theorem walk_termination (ext : Externals) (frames : List Frame) (args : List String) :
    print_locals_in_all_frames ext frames Option.none
        = .ok (((frames.enum).map (fun p => frameBlock ext p.2 p.1)).flatten)
    ∧ (∀ limit : Option Int, ∃ out, print_locals_in_all_frames ext frames limit = .ok out)
    ∧ runDefault ext frames args = run ext frames args (Option.some 5) := by
  refine ⟨?_, ?_, rfl⟩
  · rw [print_locals_in_all_frames, walkE_eq, walkT_none_eq]
    rfl
  · intro limit
    exact ⟨walkT ext limit frames 0, walkE_eq ext limit frames 0⟩

/-- C8: for every frame, the `LocalsTypes` view is the dict mapping each
key of the locals mapping to the name of its value's run-time type
(`type(value).__name__`), rendered with the same encoder
`generate_locals_dump` as the value view; e.g. `{"x": 1, "f":
<unencodable native handle>}` yields the type view `{"x": "int", "f":
"NativeHandle"}` while the value view serializes `x` as `1` and `f` as
its `repr` fallback. -/
theorem locals_types_same_encoder (ext : Externals) (f : Frame) (count : Nat) :
    ∃ s, generate_locals_dump (localsTypes f.f_locals) = .ok s
      ∧ (frameBlock ext f count)[18]?
          = some (OutEvent.line ("[[[LocalsTypes]]]" ++ "\n" ++ s ++ "\n" ++ "[[[/LocalsTypes]]]"))
      ∧ localsTypes f.f_locals
          = f.f_locals.map (fun kv => (kv.1, PyValue.str (typeName kv.2)))
      ∧ localsTypes [("x", PyValue.int 1), ("f", PyValue.obj "NativeHandle" "<native handle>")]
          = [("x", PyValue.str "int"), ("f", PyValue.str "NativeHandle")]
      ∧ generate_locals_dump [("x", PyValue.int 1), ("f", PyValue.obj "NativeHandle" "<native handle>")]
          = .ok ("\x7b\n    \"x\": 1,\n    \"f\": \"<native handle>\"\n\x7d") :=
  ⟨gldString (localsTypes f.f_locals),
    generate_locals_dump_eq (localsTypes f.f_locals), rfl, rfl, rfl, rfl⟩

/-- C9: the walk is read-only with respect to the inspected program: with
the frame store threaded explicitly through the walk, the store the walk
returns is the store it received — no frame, code object, offset or
locals mapping is changed — and the serializer builds its fresh
`safe_locals` dictionary by mapping over the input, which it leaves
intact. -/
theorem walk_read_only (ext : Externals) (frames : List Frame) (limit : Option Int) :
    (walkSt ext limit frames 0).2 = frames
    ∧ (walkSt ext limit frames 0).1 = print_locals_in_all_frames ext frames limit
    ∧ ∀ d : List (String × PyValue),
        safe_locals d = d.map (fun kv => (kv.1, safe_serialize kv.2)) :=
  ⟨(walkSt_eq ext limit frames 0).1, (walkSt_eq ext limit frames 0).2,
    fun _ => rfl⟩

/-- C10: for every invocation — any externals, frame chain, arguments and
limit — `run` returns `False` after emitting the `InfoFrames` block
(opened by `[[[InfoFrames]]]` and closed by `[[[/InfoFrames]]]`). -/
theorem run_returns_false (ext : Externals) (frames : List Frame)
    (args : List String) (limit : Option Int) :
    ∃ out, run ext frames args limit = .ok (out, false)
      ∧ out.head? = some (OutEvent.line "[[[InfoFrames]]]")
      ∧ out.getLast? = some (OutEvent.line "[[[/InfoFrames]]]") := by
  refine ⟨[OutEvent.line "[[[InfoFrames]]]"] ++ walkT ext limit frames 0
            ++ [OutEvent.line "[[[/InfoFrames]]]"], ?_, rfl, ?_⟩
  · unfold run print_locals_in_all_frames
    rw [walkE_eq]
    rfl
  · exact List.getLast?_concat _
